import Mathlib

/-!
Verification of the shared WebSocket connection multiplexer
(`src/frontend/src/hooks/useWebSocketManager.ts`, class `SharedWebSocketManager`).

The manager is embedded shallowly as a state machine:

* JS `Map`s become association lists accessed only through `lookupA`,
  `insertA` (replace-in-place, like `Map.set`) and `eraseA` (like
  `Map.delete`); JS `Set`s become duplicate-free lists built by `setAdd`
  (like `Set.add`: a no-op when the element is already present, otherwise
  appended, preserving JS insertion-iteration order).
* A `WebSocket` object becomes a `Socket` record carrying its identity,
  the connection id it was created for, and its `readyState`.  `close()`
  moves a CONNECTING/OPEN socket to CLOSING; the asynchronous `close`
  event is a separate transition (`deliverClose`) that may fire on any
  not-yet-closed socket (covering connection failure, server-side close
  and the completion of a local `close()` call alike).
* Handler callbacks are identified by numeric tokens; the per-connection
  handler `Map` object captured by the `onMessage` cleanup closure is
  tracked by a generation number so that a closure over a `Map` that
  `disconnect` has since discarded is correctly a no-op.
* Outbound `ws.send` calls, handler invocations and `console.error`
  parse failures are recorded in logs (`sent`, `invoked`, `parseErrors`)
  so that the observable behaviour of a run can be stated.

Events (consumer API calls, transport callbacks, timer firings) are
interleaved explicitly via `step`/`run`, matching the single-threaded
event-loop model of the source.
-/

namespace WSManager

/-- Association-list lookup, modelling `Map.get`. -/
def lookupA {κ α : Type} [DecidableEq κ] (k : κ) : List (κ × α) → Option α
  | [] => none
  | (k', v) :: rest => if k' = k then some v else lookupA k rest

/-- Association-list insertion, modelling `Map.set`: replaces the existing
entry in place, otherwise appends. -/
def insertA {κ α : Type} [DecidableEq κ] (k : κ) (v : α) : List (κ × α) → List (κ × α)
  | [] => [(k, v)]
  | (k', v') :: rest => if k' = k then (k, v) :: rest else (k', v') :: insertA k v rest

/-- Association-list deletion, modelling `Map.delete`. -/
def eraseA {κ α : Type} [DecidableEq κ] (k : κ) (l : List (κ × α)) : List (κ × α) :=
  l.filter (fun p => p.1 ≠ k)

/-- `Set.add`: no-op if present, else append (JS sets iterate in insertion order). -/
def setAdd {α : Type} [DecidableEq α] (x : α) (s : List α) : List α :=
  if x ∈ s then s else s ++ [x]

/-- The `readyState` of a `WebSocket`. -/
inductive ReadyState : Type
  | connecting
  | open_
  | closing
  | closed
deriving DecidableEq

/-- One `WebSocket` object: its identity, the connection id it serves,
and its current `readyState`. -/
structure Socket : Type where
  sockId : Nat
  connId : Nat
  state : ReadyState
deriving DecidableEq

/-- An outbound JSON frame `{"action": ..., "channels": [...]}`. -/
structure Frame : Type where
  action : String
  channels : List String
deriving DecidableEq

/-- Per-connection handler map: message-type discriminant → set of handlers
(handlers are identified by numeric ids standing for JS function references). -/
abbrev HandlerMap := List (String × List Nat)

/-- The de-registration closure returned by `onMessage`: it captures the
per-connection handler `Map` (identified by its generation), the type key
and the handler reference. -/
structure Token : Type where
  connId : Nat
  gen : Nat
  msgType : String
  handlerId : Nat
deriving DecidableEq

/-- The full state of the `SharedWebSocketManager` singleton together with
the transport world (all sockets ever created) and observation logs. -/
structure MState : Type where
  /-- Every `WebSocket` ever constructed, with its current `readyState`. -/
  sockets : List Socket
  /-- `private connections: Map<number, WebSocket>` (socket by identity). -/
  connections : List (Nat × Nat)
  /-- `private messageHandlers: Map<number, Map<string, Set<handler>>>`;
  the inner `Map` object is tagged with a generation number. -/
  messageHandlers : List (Nat × Nat × HandlerMap)
  /-- `private subscribedChannels: Map<number, Set<string>>`. -/
  subscribedChannels : List (Nat × List String)
  /-- `private reconnectTimeouts: Map<number, NodeJS.Timeout>` (timer by id). -/
  reconnectTimeouts : List (Nat × Nat)
  /-- Pending `setTimeout` callbacks: timer id, connection id, cancelled flag. -/
  timers : List (Nat × Nat × Bool)
  nextSockId : Nat
  nextTimerId : Nat
  nextGen : Nat
  /-- Chronological log of `ws.send` calls: which socket sent which frame. -/
  sent : List (Nat × Frame)
  /-- Number of `console.error` reports from `JSON.parse` failures. -/
  parseErrors : Nat
  /-- Chronological log of handler invocations. -/
  invoked : List Nat
deriving DecidableEq

/-- The manager before any call: all maps empty. -/
def initState : MState :=
  { sockets := [], connections := [], messageHandlers := [],
    subscribedChannels := [], reconnectTimeouts := [], timers := [],
    nextSockId := 0, nextTimerId := 0, nextGen := 0,
    sent := [], parseErrors := 0, invoked := [] }

/-- `private autoReconnect: boolean = true` — never mutated in the source. -/
def autoReconnect : Bool := true

/-- Find a socket by identity. -/
def getSock (sid : Nat) : List Socket → Option Socket
  | [] => none
  | s :: rest => if s.sockId = sid then some s else getSock sid rest

/-- Overwrite the `readyState` of the socket with identity `sid`. -/
def setSockState (sid : Nat) (rs : ReadyState) (socks : List Socket) : List Socket :=
  socks.map fun s => if s.sockId = sid then { s with state := rs } else s

/-- `ws.close()`: a CONNECTING/OPEN socket moves to CLOSING (its close
event is delivered later); on a CLOSING/CLOSED socket it is a no-op. -/
def closeSock (sid : Nat) (socks : List Socket) : List Socket :=
  socks.map fun s =>
    if s.sockId = sid ∧ (s.state = ReadyState.connecting ∨ s.state = ReadyState.open_)
    then { s with state := ReadyState.closing } else s

/-- `clearTimeout`: mark the pending timer cancelled (it never fires). -/
def clearTimeoutT (tid : Nat) (ts : List (Nat × Nat × Bool)) : List (Nat × Nat × Bool) :=
  ts.map fun t => if t.1 = tid then (t.1, t.2.1, true) else t

/-- The tail of `connect` after the early `return`: close any stale socket,
clear any pending reconnect timer, construct a new `WebSocket` (readyState
CONNECTING) and store it in `connections` (line 104 of the source). -/
def connectFresh (id : Nat) (stale : Option Nat) (m : MState) : MState :=
  let m1 := match stale with
    | some sid => { m with sockets := closeSock sid m.sockets }
    | none => m
  let m2 := match lookupA id m1.reconnectTimeouts with
    | some tid =>
        { m1 with
          reconnectTimeouts := eraseA id m1.reconnectTimeouts,
          timers := clearTimeoutT tid m1.timers }
    | none => m1
  { m2 with
    sockets := m2.sockets ++ [⟨m2.nextSockId, id, ReadyState.connecting⟩],
    connections := insertA id m2.nextSockId m2.connections,
    nextSockId := m2.nextSockId + 1 }

/-- `connect(connectionId)`: if the mapped socket is OPEN or CONNECTING,
return without creating another connection; otherwise proceed. -/
def connect (id : Nat) (m : MState) : MState :=
  match (lookupA id m.connections).bind (fun sid => getSock sid m.sockets) with
  | some s =>
    if s.state = ReadyState.open_ ∨ s.state = ReadyState.connecting then m
    else connectFresh id (some s.sockId) m
  | none => connectFresh id none m

/-- `disconnect(connectionId)`: clear the reconnect timeout, close and drop
the mapped socket, delete the handler map and the subscribed-channel set. -/
def disconnect (id : Nat) (m : MState) : MState :=
  let m1 := match lookupA id m.reconnectTimeouts with
    | some tid =>
        { m with
          reconnectTimeouts := eraseA id m.reconnectTimeouts,
          timers := clearTimeoutT tid m.timers }
    | none => m
  let m2 := match lookupA id m1.connections with
    | some sid =>
        { m1 with
          sockets := closeSock sid m1.sockets,
          connections := eraseA id m1.connections }
    | none => m1
  { m2 with
    messageHandlers := eraseA id m2.messageHandlers,
    subscribedChannels := eraseA id m2.subscribedChannels }

/-- `subscribe(connectionId, channels)`: add the channels to the stored set,
then — if the mapped socket is OPEN — send a subscribe frame carrying the
`channels` argument as given; otherwise call `connect`. -/
def subscribe (id : Nat) (channels : List String) (m : MState) : MState :=
  let cur := (lookupA id m.subscribedChannels).getD []
  let m1 := { m with
    subscribedChannels :=
      insertA id (channels.foldl (fun s ch => setAdd ch s) cur) m.subscribedChannels }
  match (lookupA id m1.connections).bind (fun sid => getSock sid m1.sockets) with
  | some s =>
    if s.state = ReadyState.open_ then
      { m1 with sent := m1.sent ++ [(s.sockId, ⟨"subscribe", channels⟩)] }
    else connect id m1
  | none => connect id m1

/-- `unsubscribe(connectionId, channels)`: remove the channels from the
stored set (if a set exists) and, if the mapped socket is OPEN, send an
unsubscribe frame carrying the `channels` argument. -/
def unsubscribe (id : Nat) (channels : List String) (m : MState) : MState :=
  let m1 := match lookupA id m.subscribedChannels with
    | some cur =>
        { m with subscribedChannels :=
            insertA id (channels.foldl (fun s ch => s.erase ch) cur) m.subscribedChannels }
    | none => m
  match (lookupA id m1.connections).bind (fun sid => getSock sid m1.sockets) with
  | some s =>
    if s.state = ReadyState.open_ then
      { m1 with sent := m1.sent ++ [(s.sockId, ⟨"unsubscribe", channels⟩)] }
    else m1
  | none => m1

/-- `onMessage(connectionId, type, handler)`: lazily create the
per-connection handler `Map` (a fresh generation), add the handler to the
`Set` for `ty`, and return the cleanup closure as a `Token`. -/
def onMessage (id : Nat) (ty : String) (handlerId : Nat) (m : MState) : MState × Token :=
  match lookupA id m.messageHandlers with
  | some (g, hmap) =>
    let cur := (lookupA ty hmap).getD []
    ({ m with messageHandlers :=
        (insertA id (g, insertA ty (setAdd handlerId cur) hmap) m.messageHandlers) },
     ⟨id, g, ty, handlerId⟩)
  | none =>
    let g := m.nextGen
    ({ m with
        nextGen := g + 1,
        messageHandlers :=
          (insertA id (g, insertA ty (setAdd handlerId ([] : List Nat)) ([] : HandlerMap))
            m.messageHandlers) },
     ⟨id, g, ty, handlerId⟩)

/-- Invoking the cleanup closure returned by `onMessage`: delete the handler
from the type's `Set` in the captured `Map`.  If the current registry entry
for the connection is a different `Map` object (different generation), the
closure mutates an unreachable object — observationally a no-op. -/
def unregister (t : Token) (m : MState) : MState :=
  match lookupA t.connId m.messageHandlers with
  | some (g, hmap) =>
    if g = t.gen then
      match lookupA t.msgType hmap with
      | some hs =>
        { m with messageHandlers :=
            (insertA t.connId (g, insertA t.msgType (hs.erase t.handlerId) hmap)
              m.messageHandlers) }
      | none => m
    else m
  | none => m

/-- `isConnected(connectionId)`: true iff the mapped socket is OPEN. -/
def isConnected (id : Nat) (m : MState) : Bool :=
  match (lookupA id m.connections).bind (fun sid => getSock sid m.sockets) with
  | some s => s.state = ReadyState.open_
  | none => false

/-- Delivery of the `open` event for socket `sid` (runs `ws.onopen`):
the socket becomes OPEN, is (re)stored in `connections`, and if the
subscribed-channel set for its connection is non-empty, one subscribe
frame listing the whole set is sent. -/
def deliverOpen (sid : Nat) (m : MState) : MState :=
  match getSock sid m.sockets with
  | none => m
  | some s =>
    if s.state = ReadyState.connecting then
      let chans := (lookupA s.connId m.subscribedChannels).getD []
      { m with
        sockets := setSockState sid ReadyState.open_ m.sockets,
        connections := insertA s.connId sid m.connections,
        sent := if chans ≠ [] then m.sent ++ [(sid, ⟨"subscribe", chans⟩)] else m.sent }
    else m

/-- Delivery of the `close` event for socket `sid` (runs `ws.onclose`):
possible for any socket that is not already CLOSED (connection failure,
server close, or completion of a local `close()`).  The handler deletes the
connection's `connections` entry unconditionally and, since `autoReconnect`
is always true, arms a fresh reconnect timer for the connection id. -/
def deliverClose (sid : Nat) (m : MState) : MState :=
  match getSock sid m.sockets with
  | none => m
  | some s =>
    if s.state = ReadyState.closed then m
    else
      let m1 := { m with
        sockets := setSockState sid ReadyState.closed m.sockets,
        connections := eraseA s.connId m.connections }
      if autoReconnect then
        { m1 with
          timers := m1.timers ++ [(m1.nextTimerId, s.connId, false)],
          reconnectTimeouts := insertA s.connId m1.nextTimerId m1.reconnectTimeouts,
          nextTimerId := m1.nextTimerId + 1 }
      else m1

/-- Delivery of a text frame on socket `sid` (runs `ws.onmessage`); frames
arrive only on OPEN sockets.  `payload = none` models data on which
`JSON.parse` throws: the error is logged and nothing else happens.
`payload = some ty` models a parsed message whose `type` field is `ty`:
the handlers registered for exactly `ty` run first, then the handlers
registered under `"all"`. -/
def deliverMessage (sid : Nat) (payload : Option String) (m : MState) : MState :=
  match getSock sid m.sockets with
  | none => m
  | some s =>
    if s.state = ReadyState.open_ then
      match payload with
      | none => { m with parseErrors := m.parseErrors + 1 }
      | some ty =>
        match lookupA s.connId m.messageHandlers with
        | none => m
        | some (_, hmap) =>
          { m with invoked :=
              m.invoked ++ (lookupA ty hmap).getD [] ++ (lookupA "all" hmap).getD [] }
    else m

/-- Firing of the reconnect timer `tid`: if it has not been cancelled, it
is consumed and its callback runs `connect` on its connection id. -/
def timerFire (tid : Nat) (m : MState) : MState :=
  match m.timers.find? (fun t => t.1 = tid) with
  | some (_, cid, cancelled) =>
    if cancelled then m
    else connect cid { m with timers := m.timers.filter (fun t => t.1 ≠ tid) }
  | none => m

/-- One event of the single-threaded event loop: a consumer API call, a
transport callback, or a timer firing. -/
inductive Event : Type
  | connectE (id : Nat)
  | disconnectE (id : Nat)
  | subscribeE (id : Nat) (channels : List String)
  | unsubscribeE (id : Nat) (channels : List String)
  | onMessageE (id : Nat) (ty : String) (handlerId : Nat)
  | tokenE (t : Token)
  | openE (sid : Nat)
  | closeE (sid : Nat)
  | messageE (sid : Nat) (payload : Option String)
  | timerE (tid : Nat)

/-- Apply one event to the manager state. -/
def step (m : MState) : Event → MState
  | Event.connectE id => connect id m
  | Event.disconnectE id => disconnect id m
  | Event.subscribeE id chs => subscribe id chs m
  | Event.unsubscribeE id chs => unsubscribe id chs m
  | Event.onMessageE id ty h => (onMessage id ty h m).1
  | Event.tokenE t => unregister t m
  | Event.openE sid => deliverOpen sid m
  | Event.closeE sid => deliverClose sid m
  | Event.messageE sid pl => deliverMessage sid pl m
  | Event.timerE tid => timerFire tid m

/-- Run a sequence of events. -/
def run (es : List Event) (m : MState) : MState := es.foldl step m

/-- The live (OPEN or CONNECTING) sockets serving connection `id`. -/
def liveSockets (id : Nat) (m : MState) : List Socket :=
  m.sockets.filter fun s =>
    decide (s.connId = id ∧ (s.state = ReadyState.connecting ∨ s.state = ReadyState.open_))

/-! ### Association-list and set lemmas -/

theorem lookupA_insertA_self {κ α : Type} [DecidableEq κ] (k : κ) (v : α)
    (l : List (κ × α)) : lookupA k (insertA k v l) = some v := by
  induction l with
  | nil => simp [insertA, lookupA]
  | cons p rest ih =>
    obtain ⟨k', v'⟩ := p
    by_cases h : k' = k <;> simp [insertA, lookupA, h, ih]

theorem lookupA_insertA_ne {κ α : Type} [DecidableEq κ] {k k2 : κ} (v : α)
    (l : List (κ × α)) (hne : k2 ≠ k) : lookupA k2 (insertA k v l) = lookupA k2 l := by
  have hkk : k ≠ k2 := Ne.symm hne
  induction l with
  | nil => simp [insertA, lookupA, hkk]
  | cons p rest ih =>
    obtain ⟨k', v'⟩ := p
    by_cases h : k' = k
    · simp [insertA, lookupA, h, hkk]
    · simp [insertA, lookupA, h, ih]

theorem lookupA_eraseA_self {κ α : Type} [DecidableEq κ] (k : κ)
    (l : List (κ × α)) : lookupA k (eraseA k l) = none := by
  induction l with
  | nil => simp [eraseA, lookupA]
  | cons p rest ih =>
    obtain ⟨k', v'⟩ := p
    by_cases h : k' = k
    · simpa [eraseA, List.filter_cons, h, lookupA] using ih
    · simpa [eraseA, List.filter_cons, h, lookupA] using ih

theorem lookupA_eraseA_ne {κ α : Type} [DecidableEq κ] {k k2 : κ}
    (l : List (κ × α)) (hne : k2 ≠ k) : lookupA k2 (eraseA k l) = lookupA k2 l := by
  induction l with
  | nil => simp [eraseA, lookupA]
  | cons p rest ih =>
    obtain ⟨k', v'⟩ := p
    by_cases h : k' = k
    · simpa [eraseA, List.filter_cons, h, lookupA, Ne.symm hne] using ih
    · by_cases h2 : k' = k2
      · simp [eraseA, List.filter_cons, h, lookupA, h2, hne]
      · simpa [eraseA, List.filter_cons, h, lookupA, h2] using ih

theorem insertA_lookup_self {κ α : Type} [DecidableEq κ] {k : κ} {v : α}
    {l : List (κ × α)} (h : lookupA k l = some v) : insertA k v l = l := by
  induction l with
  | nil => simp [lookupA] at h
  | cons p rest ih =>
    obtain ⟨k', v'⟩ := p
    by_cases hk : k' = k
    · subst hk
      simp [lookupA] at h
      simp [insertA, h]
    · simp [lookupA, hk] at h
      simp [insertA, hk, ih h]

theorem insertA_insertA {κ α : Type} [DecidableEq κ] (k : κ) (v1 v2 : α)
    (l : List (κ × α)) : insertA k v1 (insertA k v2 l) = insertA k v1 l := by
  induction l with
  | nil => simp [insertA]
  | cons p rest ih =>
    obtain ⟨k', v'⟩ := p
    by_cases h : k' = k <;> simp [insertA, h, ih]

theorem mem_setAdd_self {α : Type} [DecidableEq α] (x : α) (s : List α) :
    x ∈ setAdd x s := by
  by_cases h : x ∈ s <;> simp [setAdd, h]

theorem setAdd_of_mem {α : Type} [DecidableEq α] {x : α} {s : List α}
    (h : x ∈ s) : setAdd x s = s := by
  simp [setAdd, h]

theorem setAdd_of_not_mem {α : Type} [DecidableEq α] {x : α} {s : List α}
    (h : x ∉ s) : setAdd x s = s ++ [x] := by
  simp [setAdd, h]

theorem erase_setAdd_of_not_mem {α : Type} [DecidableEq α] {x : α} {s : List α}
    (h : x ∉ s) : (setAdd x s).erase x = s := by
  rw [setAdd_of_not_mem h, List.erase_append_right _ h]
  simp

/-! ### Socket-list lemmas -/

theorem getSock_append_of_none {sid : Nat} {l1 : List Socket} (l2 : List Socket)
    (h : getSock sid l1 = none) : getSock sid (l1 ++ l2) = getSock sid l2 := by
  induction l1 with
  | nil => simp
  | cons s rest ih =>
    by_cases hs : s.sockId = sid
    · simp [getSock, hs] at h
    · simp [getSock, hs] at h ⊢
      exact ih h

theorem getSock_map_none {f : Socket → Socket} (hf : ∀ s, (f s).sockId = s.sockId)
    {sid : Nat} {socks : List Socket} (h : getSock sid socks = none) :
    getSock sid (socks.map f) = none := by
  induction socks with
  | nil => simp [getSock]
  | cons s rest ih =>
    by_cases hs : s.sockId = sid
    · simp [getSock, hs] at h
    · simp [getSock, hs] at h
      simp [getSock, hf s, hs]
      exact ih h

theorem getSock_map_some {f : Socket → Socket} (hf : ∀ s, (f s).sockId = s.sockId)
    {sid : Nat} {socks : List Socket} {s : Socket} (h : getSock sid socks = some s) :
    getSock sid (socks.map f) = some (f s) := by
  induction socks with
  | nil => simp [getSock] at h
  | cons s0 rest ih =>
    by_cases hs : s0.sockId = sid
    · simp [getSock, hs] at h
      subst h
      simp [getSock, hf s0, hs]
    · simp [getSock, hs] at h
      simp [getSock, hf s0, hs]
      exact ih h

theorem getSock_sockId {sid : Nat} {socks : List Socket} {s : Socket}
    (h : getSock sid socks = some s) : s.sockId = sid := by
  induction socks with
  | nil => simp [getSock] at h
  | cons s0 rest ih =>
    by_cases hs : s0.sockId = sid
    · simp [getSock, hs] at h
      subst h
      exact hs
    · simp [getSock, hs] at h
      exact ih h

theorem lookupA_getD_eraseA_self {κ α : Type} [DecidableEq κ] (k : κ) (d : α)
    (l : List (κ × α)) : ((lookupA k (eraseA k l)).getD d) = d := by
  rw [lookupA_eraseA_self]
  rfl

theorem getSock_closeSock_of_none {sid x : Nat} {socks : List Socket}
    (h : getSock sid socks = none) : getSock sid (closeSock x socks) = none := by
  unfold closeSock
  refine getSock_map_none (fun s => ?_) h
  by_cases hc : s.sockId = x ∧ (s.state = ReadyState.connecting ∨ s.state = ReadyState.open_) <;>
    simp [hc]

theorem getSock_setSockState_some {sid : Nat} {socks : List Socket} {s : Socket}
    (rs : ReadyState) (h : getSock sid socks = some s) :
    getSock sid (setSockState sid rs socks) = some { s with state := rs } := by
  unfold setSockState
  have hmap := getSock_map_some
    (f := fun s0 => if s0.sockId = sid then { s0 with state := rs } else s0)
    (fun s0 => by by_cases hc : s0.sockId = sid <;> simp [hc]) h
  rw [hmap]
  simp [getSock_sockId h]

/-! ### Characterizations of the manager operations -/

theorem connectFresh_messageHandlers (id : Nat) (stale : Option Nat) (m : MState) :
    (connectFresh id stale m).messageHandlers = m.messageHandlers := by
  cases stale <;> cases h : lookupA id m.reconnectTimeouts <;>
    simp [connectFresh, h]

theorem connectFresh_subscribedChannels (id : Nat) (stale : Option Nat) (m : MState) :
    (connectFresh id stale m).subscribedChannels = m.subscribedChannels := by
  cases stale <;> cases h : lookupA id m.reconnectTimeouts <;>
    simp [connectFresh, h]

theorem connectFresh_sent (id : Nat) (stale : Option Nat) (m : MState) :
    (connectFresh id stale m).sent = m.sent := by
  cases stale <;> cases h : lookupA id m.reconnectTimeouts <;>
    simp [connectFresh, h]

theorem connectFresh_invoked (id : Nat) (stale : Option Nat) (m : MState) :
    (connectFresh id stale m).invoked = m.invoked := by
  cases stale <;> cases h : lookupA id m.reconnectTimeouts <;>
    simp [connectFresh, h]

theorem connectFresh_of_none (id : Nat) (m : MState)
    (h : lookupA id m.reconnectTimeouts = none) :
    connectFresh id none m = { m with
      sockets := m.sockets ++ [⟨m.nextSockId, id, ReadyState.connecting⟩],
      connections := insertA id m.nextSockId m.connections,
      nextSockId := m.nextSockId + 1 } := by
  simp [connectFresh, h]

theorem connect_messageHandlers (id : Nat) (m : MState) :
    (connect id m).messageHandlers = m.messageHandlers := by
  cases h : (lookupA id m.connections).bind (fun sid => getSock sid m.sockets) with
  | none => simp [connect, h, connectFresh_messageHandlers]
  | some s =>
    by_cases hs : s.state = ReadyState.open_ ∨ s.state = ReadyState.connecting <;>
      simp [connect, h, hs, connectFresh_messageHandlers]

theorem connect_subscribedChannels (id : Nat) (m : MState) :
    (connect id m).subscribedChannels = m.subscribedChannels := by
  cases h : (lookupA id m.connections).bind (fun sid => getSock sid m.sockets) with
  | none => simp [connect, h, connectFresh_subscribedChannels]
  | some s =>
    by_cases hs : s.state = ReadyState.open_ ∨ s.state = ReadyState.connecting <;>
      simp [connect, h, hs, connectFresh_subscribedChannels]

theorem connect_sent (id : Nat) (m : MState) : (connect id m).sent = m.sent := by
  cases h : (lookupA id m.connections).bind (fun sid => getSock sid m.sockets) with
  | none => simp [connect, h, connectFresh_sent]
  | some s =>
    by_cases hs : s.state = ReadyState.open_ ∨ s.state = ReadyState.connecting <;>
      simp [connect, h, hs, connectFresh_sent]

theorem connect_invoked (id : Nat) (m : MState) : (connect id m).invoked = m.invoked := by
  cases h : (lookupA id m.connections).bind (fun sid => getSock sid m.sockets) with
  | none => simp [connect, h, connectFresh_invoked]
  | some s =>
    by_cases hs : s.state = ReadyState.open_ ∨ s.state = ReadyState.connecting <;>
      simp [connect, h, hs, connectFresh_invoked]

theorem connect_of_lookup_none (id : Nat) (m : MState)
    (h : lookupA id m.connections = none) : connect id m = connectFresh id none m := by
  simp [connect, h]

theorem timerFire_messageHandlers (tid : Nat) (m : MState) :
    (timerFire tid m).messageHandlers = m.messageHandlers := by
  cases h : m.timers.find? (fun t => t.1 = tid) with
  | none => simp [timerFire, h]
  | some t =>
    obtain ⟨a, cid, cancelled⟩ := t
    cases cancelled <;> simp [timerFire, h, connect_messageHandlers]

theorem timerFire_subscribedChannels (tid : Nat) (m : MState) :
    (timerFire tid m).subscribedChannels = m.subscribedChannels := by
  cases h : m.timers.find? (fun t => t.1 = tid) with
  | none => simp [timerFire, h]
  | some t =>
    obtain ⟨a, cid, cancelled⟩ := t
    cases cancelled <;> simp [timerFire, h, connect_subscribedChannels]

theorem deliverOpen_spec (sid : Nat) (m : MState) (s : Socket)
    (h1 : getSock sid m.sockets = some s) (h2 : s.state = ReadyState.connecting) :
    deliverOpen sid m = { m with
      sockets := setSockState sid ReadyState.open_ m.sockets,
      connections := insertA s.connId sid m.connections,
      sent :=
        if (lookupA s.connId m.subscribedChannels).getD [] ≠ [] then
          m.sent ++ [(sid, ⟨"subscribe", (lookupA s.connId m.subscribedChannels).getD []⟩)]
        else m.sent } := by
  simp [deliverOpen, h1, h2]

theorem deliverOpen_messageHandlers (sid : Nat) (m : MState) :
    (deliverOpen sid m).messageHandlers = m.messageHandlers := by
  cases h : getSock sid m.sockets with
  | none => simp [deliverOpen, h]
  | some s =>
    by_cases hs : s.state = ReadyState.connecting <;> simp [deliverOpen, h, hs]

theorem deliverOpen_subscribedChannels (sid : Nat) (m : MState) :
    (deliverOpen sid m).subscribedChannels = m.subscribedChannels := by
  cases h : getSock sid m.sockets with
  | none => simp [deliverOpen, h]
  | some s =>
    by_cases hs : s.state = ReadyState.connecting <;> simp [deliverOpen, h, hs]

theorem deliverOpen_invoked (sid : Nat) (m : MState) :
    (deliverOpen sid m).invoked = m.invoked := by
  cases h : getSock sid m.sockets with
  | none => simp [deliverOpen, h]
  | some s =>
    by_cases hs : s.state = ReadyState.connecting <;> simp [deliverOpen, h, hs]

theorem deliverClose_messageHandlers (sid : Nat) (m : MState) :
    (deliverClose sid m).messageHandlers = m.messageHandlers := by
  cases h : getSock sid m.sockets with
  | none => simp [deliverClose, h]
  | some s =>
    by_cases hs : s.state = ReadyState.closed <;>
      simp [deliverClose, h, hs, autoReconnect]

theorem deliverClose_subscribedChannels (sid : Nat) (m : MState) :
    (deliverClose sid m).subscribedChannels = m.subscribedChannels := by
  cases h : getSock sid m.sockets with
  | none => simp [deliverClose, h]
  | some s =>
    by_cases hs : s.state = ReadyState.closed <;>
      simp [deliverClose, h, hs, autoReconnect]

theorem deliverMessage_malformed (sid : Nat) (m : MState) (s : Socket)
    (h1 : getSock sid m.sockets = some s) (h2 : s.state = ReadyState.open_) :
    deliverMessage sid none m = { m with parseErrors := m.parseErrors + 1 } := by
  simp [deliverMessage, h1, h2]

theorem deliverMessage_dispatch (sid : Nat) (m : MState) (s : Socket) (ty : String)
    (g : Nat) (hmap : HandlerMap)
    (h1 : getSock sid m.sockets = some s) (h2 : s.state = ReadyState.open_)
    (h3 : lookupA s.connId m.messageHandlers = some (g, hmap)) :
    deliverMessage sid (some ty) m = { m with invoked :=
      (m.invoked ++ (lookupA ty hmap).getD [] ++ (lookupA "all" hmap).getD []) } := by
  simp [deliverMessage, h1, h2, h3]

theorem deliverMessage_noRegistry (sid : Nat) (m : MState) (s : Socket) (ty : String)
    (h1 : getSock sid m.sockets = some s) (h2 : s.state = ReadyState.open_)
    (h3 : lookupA s.connId m.messageHandlers = none) :
    deliverMessage sid (some ty) m = m := by
  simp [deliverMessage, h1, h2, h3]

theorem disconnect_messageHandlers (id : Nat) (m : MState) :
    (disconnect id m).messageHandlers = eraseA id m.messageHandlers := by
  cases h1 : lookupA id m.reconnectTimeouts <;>
    cases h2 : lookupA id m.connections <;> simp [disconnect, h1, h2]

theorem disconnect_subscribedChannels (id : Nat) (m : MState) :
    (disconnect id m).subscribedChannels = eraseA id m.subscribedChannels := by
  cases h1 : lookupA id m.reconnectTimeouts <;>
    cases h2 : lookupA id m.connections <;> simp [disconnect, h1, h2]

theorem disconnect_nextSockId (id : Nat) (m : MState) :
    (disconnect id m).nextSockId = m.nextSockId := by
  cases h1 : lookupA id m.reconnectTimeouts <;>
    cases h2 : lookupA id m.connections <;> simp [disconnect, h1, h2]

theorem disconnect_sent (id : Nat) (m : MState) :
    (disconnect id m).sent = m.sent := by
  cases h1 : lookupA id m.reconnectTimeouts <;>
    cases h2 : lookupA id m.connections <;> simp [disconnect, h1, h2]

theorem disconnect_invoked (id : Nat) (m : MState) :
    (disconnect id m).invoked = m.invoked := by
  cases h1 : lookupA id m.reconnectTimeouts <;>
    cases h2 : lookupA id m.connections <;> simp [disconnect, h1, h2]

theorem disconnect_connections_self (id : Nat) (m : MState) :
    lookupA id (disconnect id m).connections = none := by
  cases h1 : lookupA id m.reconnectTimeouts <;>
    cases h2 : lookupA id m.connections <;>
      simp [disconnect, h1, h2, lookupA_eraseA_self]

theorem disconnect_connections_ne (id id2 : Nat) (m : MState) (hne : id2 ≠ id) :
    lookupA id2 (disconnect id m).connections = lookupA id2 m.connections := by
  cases h1 : lookupA id m.reconnectTimeouts <;>
    cases h2 : lookupA id m.connections <;>
      simp [disconnect, h1, h2, lookupA_eraseA_ne _ hne]

theorem disconnect_reconnectTimeouts_self (id : Nat) (m : MState) :
    lookupA id (disconnect id m).reconnectTimeouts = none := by
  cases h1 : lookupA id m.reconnectTimeouts <;>
    cases h2 : lookupA id m.connections <;>
      simp [disconnect, h1, h2, lookupA_eraseA_self]

theorem disconnect_reconnectTimeouts_ne (id id2 : Nat) (m : MState) (hne : id2 ≠ id) :
    lookupA id2 (disconnect id m).reconnectTimeouts = lookupA id2 m.reconnectTimeouts := by
  cases h1 : lookupA id m.reconnectTimeouts <;>
    cases h2 : lookupA id m.connections <;>
      simp [disconnect, h1, h2, lookupA_eraseA_ne _ hne]

theorem disconnect_getSock_of_none (id : Nat) (m : MState) {x : Nat}
    (h : getSock x m.sockets = none) : getSock x (disconnect id m).sockets = none := by
  cases h1 : lookupA id m.reconnectTimeouts <;>
    cases h2 : lookupA id m.connections <;>
      simp [disconnect, h1, h2, h, getSock_closeSock_of_none]

/-! ### The claims -/

/-- Claim C1 fails on the code: the at-most-one-live-transport invariant is
violated in a reachable state.  Trace: `connect(1)` creates socket 0;
`disconnect(1)` calls `close()` on it (CLOSING) and empties the map;
`connect(1)` creates socket 1 (CONNECTING, mapped); then socket 0's `close`
event is delivered — its `onclose` handler deletes the `connections` entry
(which now holds socket 1!) and arms a reconnect timer; the timer fires and
`connect(1)`, seeing an empty map, creates socket 2.  Sockets 1 and 2 are
then both live (CONNECTING) for connection id 1. -/
theorem c1_two_live_transports :
    liveSockets 1 (run [Event.connectE 1, Event.disconnectE 1, Event.connectE 1,
        Event.closeE 0, Event.timerE 0] initState)
      = [⟨1, 1, ReadyState.connecting⟩, ⟨2, 1, ReadyState.connecting⟩] := by
  decide

/-- Claim C2 fails on the code: after an explicit `disconnect(1)` of a
CONNECTED id, delivering the closed socket's `close` event arms a
reconnect timer (the state is not timer-free DISCONNECTED), and when that
timer fires a new transport is created for id 1 with no intervening
consumer call to `connect` or `subscribe`. -/
theorem c2_reconnect_after_explicit_disconnect :
    lookupA 1 (run [Event.connectE 1, Event.openE 0, Event.disconnectE 1,
        Event.closeE 0] initState).reconnectTimeouts = some 0
    ∧ liveSockets 1 (run [Event.connectE 1, Event.openE 0, Event.disconnectE 1,
        Event.closeE 0, Event.timerE 0] initState)
      = [⟨1, 1, ReadyState.connecting⟩] := by
  decide

/-- Claim C3, as stated, is false: calling `subscribe(1, ["a"])` twice while
CONNECTED leaves the SubscriptionSet equal to `{"a"}` but emits TWO subscribe
frames referencing `"a"` — the source sends the `channels` argument verbatim,
not the delta against the stored set. -/
theorem c3_counterexample_redundant_frame :
    (run [Event.connectE 1, Event.openE 0, Event.subscribeE 1 ["a"],
        Event.subscribeE 1 ["a"]] initState).sent
      = [(0, ⟨"subscribe", ["a"]⟩), (0, ⟨"subscribe", ["a"]⟩)]
    ∧ lookupA 1 (run [Event.connectE 1, Event.openE 0, Event.subscribeE 1 ["a"],
        Event.subscribeE 1 ["a"]] initState).subscribedChannels = some ["a"] := by
  decide

/-- Claim C3 (amended): for an id whose mapped socket is OPEN,
`subscribe(id, channels)` appends exactly one subscribe frame carrying the
`channels` argument as passed (not the delta against the stored set), and
the stored SubscriptionSet becomes the deduplicating union of the old set
with the argument — so a repeated `subscribe(id, ["a"])` keeps the set at
`{"a"}` but re-sends a frame referencing `"a"`. -/
theorem c3_subscribe_sends_argument_channels (m : MState) (id : Nat)
    (chs : List String) (sid : Nat) (s : Socket)
    (h1 : lookupA id m.connections = some sid)
    (h2 : getSock sid m.sockets = some s)
    (h3 : s.state = ReadyState.open_) :
    (subscribe id chs m).sent = m.sent ++ [(s.sockId, ⟨"subscribe", chs⟩)]
    ∧ lookupA id (subscribe id chs m).subscribedChannels
      = some (chs.foldl (fun acc ch => setAdd ch acc)
          ((lookupA id m.subscribedChannels).getD [])) := by
  constructor
  · simp [subscribe, h1, h2, h3]
  · simp [subscribe, h1, h2, h3, lookupA_insertA_self]

/-- Claim C3 witness: concrete instance of the amended subscribe contract at
a CONNECTED state already holding channel "a". -/
theorem c3_subscribe_sends_argument_channels_witness :
    (subscribe 1 ["a"]
        (run [Event.connectE 1, Event.openE 0, Event.subscribeE 1 ["a"]] initState)).sent
      = (run [Event.connectE 1, Event.openE 0, Event.subscribeE 1 ["a"]] initState).sent
        ++ [(0, ⟨"subscribe", ["a"]⟩)]
    ∧ lookupA 1 (subscribe 1 ["a"]
        (run [Event.connectE 1, Event.openE 0, Event.subscribeE 1 ["a"]] initState)).subscribedChannels
      = some ["a"] :=
  c3_subscribe_sends_argument_channels _ 1 ["a"] 0 ⟨0, 1, ReadyState.open_⟩
    (by decide) (by decide) rfl

/-- Claim C8, as stated, is false: registering the same callback reference
(handler 7) twice for `(1, "price_update")` is collapsed by the `Set`-backed
registry, so a matching inbound frame invokes it once, not twice. -/
theorem c8_counterexample_duplicate_collapsed :
    (run [Event.connectE 1, Event.openE 0, Event.onMessageE 1 "price_update" 7,
        Event.onMessageE 1 "price_update" 7, Event.messageE 0 (some "price_update")]
      initState).invoked = [7] := by
  decide

/-- Claim C8 (amended): registering the same callback reference twice via
`onMessage(id, type, handler)` for the same `(id, type)` pair is a complete
no-op the second time — the `Set`-backed registry collapses duplicate
identity, so the state and the returned token are unchanged, and the
callback is invoked once per matching message, not twice. -/
theorem c8_duplicate_registration_is_noop (m : MState) (id : Nat) (ty : String)
    (h : Nat) : onMessage id ty h (onMessage id ty h m).1 = onMessage id ty h m := by
  cases hl : lookupA id m.messageHandlers with
  | some p =>
    obtain ⟨g, hmap⟩ := p
    simp [onMessage, hl, lookupA_insertA_self,
      setAdd_of_mem (mem_setAdd_self h ((lookupA ty hmap).getD [])), insertA_insertA]
  | none =>
    simp [onMessage, hl, lookupA_insertA_self, setAdd, insertA, lookupA, insertA_insertA]

/-- Claim C4: when a CONNECTING socket's `open` event is delivered and the
stored channel set of its connection id is the non-empty `chs`, exactly one
outbound frame is appended — `{"action":"subscribe","channels": chs}` with
the full currently-desired set — and this happens within the open transition
itself, before any other traffic on the new socket; moreover the
SubscriptionSet survives every close, connect and reconnect-timer transition
unchanged. -/
theorem c4_open_sends_one_full_resubscribe (m : MState) (sid : Nat) (s : Socket)
    (chs : List String)
    (h1 : getSock sid m.sockets = some s) (h2 : s.state = ReadyState.connecting)
    (h3 : lookupA s.connId m.subscribedChannels = some chs) (h4 : chs ≠ []) :
    (deliverOpen sid m).sent = m.sent ++ [(sid, ⟨"subscribe", chs⟩)]
    ∧ (∀ sid2, (deliverClose sid2 m).subscribedChannels = m.subscribedChannels)
    ∧ (∀ id2, (connect id2 m).subscribedChannels = m.subscribedChannels)
    ∧ (∀ tid, (timerFire tid m).subscribedChannels = m.subscribedChannels) := by
  refine ⟨?_, fun sid2 => deliverClose_subscribedChannels sid2 m,
    fun id2 => connect_subscribedChannels id2 m,
    fun tid => timerFire_subscribedChannels tid m⟩
  rw [deliverOpen_spec sid m s h1 h2]
  simp [h3, h4]

/-- Claim C4 witness: after `connect(1)`, open, `subscribe(1, ["x","y"])`, a
forced close and the reconnect-timer firing, the new CONNECTING socket 1 on
open sends exactly one subscribe frame carrying `["x","y"]`. -/
theorem c4_open_sends_one_full_resubscribe_witness :
    (deliverOpen 1 (run [Event.connectE 1, Event.openE 0, Event.subscribeE 1 ["x", "y"],
        Event.closeE 0, Event.timerE 0] initState)).sent
      = (run [Event.connectE 1, Event.openE 0, Event.subscribeE 1 ["x", "y"],
          Event.closeE 0, Event.timerE 0] initState).sent ++ [(1, ⟨"subscribe", ["x", "y"]⟩)]
    ∧ (∀ sid2, (deliverClose sid2 (run [Event.connectE 1, Event.openE 0,
          Event.subscribeE 1 ["x", "y"], Event.closeE 0, Event.timerE 0] initState)).subscribedChannels
        = (run [Event.connectE 1, Event.openE 0, Event.subscribeE 1 ["x", "y"],
            Event.closeE 0, Event.timerE 0] initState).subscribedChannels)
    ∧ (∀ id2, (connect id2 (run [Event.connectE 1, Event.openE 0,
          Event.subscribeE 1 ["x", "y"], Event.closeE 0, Event.timerE 0] initState)).subscribedChannels
        = (run [Event.connectE 1, Event.openE 0, Event.subscribeE 1 ["x", "y"],
            Event.closeE 0, Event.timerE 0] initState).subscribedChannels)
    ∧ (∀ tid, (timerFire tid (run [Event.connectE 1, Event.openE 0,
          Event.subscribeE 1 ["x", "y"], Event.closeE 0, Event.timerE 0] initState)).subscribedChannels
        = (run [Event.connectE 1, Event.openE 0, Event.subscribeE 1 ["x", "y"],
            Event.closeE 0, Event.timerE 0] initState).subscribedChannels) :=
  c4_open_sends_one_full_resubscribe _ 1 ⟨1, 1, ReadyState.connecting⟩ ["x", "y"]
    (by decide) rfl (by decide) (by decide)

/-- Claim C5: for a parsed inbound message of type `ty` on an OPEN socket,
the handlers invoked are exactly the registry's list for `ty` followed by
the registry's list for the wildcard `"all"`; a handler appearing in neither
list is not invoked for that frame (its invocation count is unchanged). -/
theorem c5_dispatch_specific_then_wildcard (m : MState) (sid : Nat) (s : Socket)
    (ty : String) (g : Nat) (hmap : HandlerMap)
    (h1 : getSock sid m.sockets = some s) (h2 : s.state = ReadyState.open_)
    (h3 : lookupA s.connId m.messageHandlers = some (g, hmap)) :
    (deliverMessage sid (some ty) m).invoked
      = m.invoked ++ (lookupA ty hmap).getD [] ++ (lookupA "all" hmap).getD []
    ∧ (∀ h, h ∉ (lookupA ty hmap).getD [] → h ∉ (lookupA "all" hmap).getD [] →
        List.count h ((deliverMessage sid (some ty) m).invoked)
          = List.count h m.invoked) := by
  have hd := deliverMessage_dispatch sid m s ty g hmap h1 h2 h3
  constructor
  · rw [hd]
  · intro h hh1 hh2
    rw [hd]
    simp [List.count_append, List.count_eq_zero_of_not_mem, hh1, hh2]

/-- Claim C5 witness: with handler 10 registered for "trade_event" and
handler 12 registered for the wildcard on id 1, a "trade_event" frame
invokes 10 then 12, and a handler in neither list (11) is not invoked. -/
theorem c5_dispatch_specific_then_wildcard_witness :
    (deliverMessage 0 (some "trade_event")
        (run [Event.connectE 1, Event.openE 0, Event.onMessageE 1 "trade_event" 10,
          Event.onMessageE 1 "all" 12] initState)).invoked
      = (run [Event.connectE 1, Event.openE 0, Event.onMessageE 1 "trade_event" 10,
          Event.onMessageE 1 "all" 12] initState).invoked ++ [10] ++ [12]
    ∧ (∀ h, h ∉ [10] → h ∉ [12] →
        List.count h ((deliverMessage 0 (some "trade_event")
          (run [Event.connectE 1, Event.openE 0, Event.onMessageE 1 "trade_event" 10,
            Event.onMessageE 1 "all" 12] initState)).invoked)
          = List.count h (run [Event.connectE 1, Event.openE 0,
              Event.onMessageE 1 "trade_event" 10,
              Event.onMessageE 1 "all" 12] initState).invoked) :=
  c5_dispatch_specific_then_wildcard _ 0 ⟨0, 1, ReadyState.open_⟩ "trade_event" 0
    [("trade_event", [10]), ("all", [12])] (by decide) rfl (by decide)

/-- Claim C7: a frame that fails to parse on an OPEN socket only increments
the error side channel — every other component of the state (sockets,
connections, registries, subscriptions, timers, outbound log, invocation
log) is untouched — and dispatch of the next well-formed frame proceeds
exactly as it would have from the original state. -/
theorem c7_malformed_frame_is_isolated (m : MState) (sid : Nat) (s : Socket)
    (h1 : getSock sid m.sockets = some s) (h2 : s.state = ReadyState.open_) :
    deliverMessage sid none m = { m with parseErrors := m.parseErrors + 1 }
    ∧ (∀ ty g hmap, lookupA s.connId m.messageHandlers = some (g, hmap) →
        (deliverMessage sid (some ty) (deliverMessage sid none m)).invoked
          = m.invoked ++ (lookupA ty hmap).getD [] ++ (lookupA "all" hmap).getD []) := by
  have hm := deliverMessage_malformed sid m s h1 h2
  refine ⟨hm, ?_⟩
  intro ty g hmap h3
  rw [hm]
  rw [deliverMessage_dispatch sid { m with parseErrors := m.parseErrors + 1 } s ty g hmap
    h1 h2 h3]

/-- Claim C7 witness: with handler 4 registered for "t" on id 1, a malformed
frame only bumps the parse-error counter and a following "t" frame still
invokes handler 4. -/
theorem c7_malformed_frame_is_isolated_witness :
    deliverMessage 0 none
        (run [Event.connectE 1, Event.openE 0, Event.onMessageE 1 "t" 4] initState)
      = { (run [Event.connectE 1, Event.openE 0, Event.onMessageE 1 "t" 4] initState) with
          parseErrors :=
            (run [Event.connectE 1, Event.openE 0,
              Event.onMessageE 1 "t" 4] initState).parseErrors + 1 }
    ∧ (∀ ty g hmap,
        lookupA 1 (run [Event.connectE 1, Event.openE 0,
            Event.onMessageE 1 "t" 4] initState).messageHandlers = some (g, hmap) →
        (deliverMessage 0 (some ty) (deliverMessage 0 none
            (run [Event.connectE 1, Event.openE 0,
              Event.onMessageE 1 "t" 4] initState))).invoked
          = (run [Event.connectE 1, Event.openE 0,
              Event.onMessageE 1 "t" 4] initState).invoked
            ++ (lookupA ty hmap).getD [] ++ (lookupA "all" hmap).getD []) :=
  c7_malformed_frame_is_isolated _ 0 ⟨0, 1, ReadyState.open_⟩ (by decide) rfl

/-- Claim C9: the token returned by `onMessage(id, ty, h)` — for a handler
`h` not already registered for `(id, ty)` — removes exactly that handler:
afterwards the registry entry for `id` carries, at `ty`, precisely the list
of handlers that was there before the registration (so `h` is gone and every
other handler for the same `(id, ty)` is still active), and invoking the
token a second time is a no-op. -/
theorem c9_token_removes_exactly_its_handler (m : MState) (id : Nat)
    (ty : String) (h : Nat) (g : Nat) (hmap : HandlerMap)
    (h1 : lookupA id m.messageHandlers = some (g, hmap))
    (h2 : h ∉ (lookupA ty hmap).getD []) :
    lookupA id (unregister (onMessage id ty h m).2 (onMessage id ty h m).1).messageHandlers
      = some (g, insertA ty ((lookupA ty hmap).getD []) hmap)
    ∧ lookupA ty (insertA ty ((lookupA ty hmap).getD []) hmap)
      = some ((lookupA ty hmap).getD [])
    ∧ unregister (onMessage id ty h m).2
        (unregister (onMessage id ty h m).2 (onMessage id ty h m).1)
      = unregister (onMessage id ty h m).2 (onMessage id ty h m).1 := by
  have hU1 : unregister (onMessage id ty h m).2 (onMessage id ty h m).1
      = { m with messageHandlers :=
          (insertA id (g, insertA ty ((lookupA ty hmap).getD []) hmap) m.messageHandlers) } := by
    simp [onMessage, h1]
    simp [unregister, lookupA_insertA_self, erase_setAdd_of_not_mem h2, insertA_insertA]
  refine ⟨?_, lookupA_insertA_self ty _ hmap, ?_⟩
  · rw [hU1]
    exact lookupA_insertA_self id _ m.messageHandlers
  · rw [hU1]
    have htok : (onMessage id ty h m).2 = ⟨id, g, ty, h⟩ := by
      simp [onMessage, h1]
    rw [htok]
    simp [unregister, lookupA_insertA_self, List.erase_of_not_mem h2, insertA_insertA]

/-- Claim C9 witness: with handler 5 already registered for `(1, "t")`,
registering and then de-registering handler 6 restores exactly `[5]` at
`"t"`, and the token is idempotent. -/
theorem c9_token_removes_exactly_its_handler_witness :
    lookupA 1 (unregister (onMessage 1 "t" 6 (run [Event.onMessageE 1 "t" 5] initState)).2
        (onMessage 1 "t" 6 (run [Event.onMessageE 1 "t" 5] initState)).1).messageHandlers
      = some (0, insertA "t" [5] [("t", [5])])
    ∧ lookupA "t" (insertA "t" [5] [("t", [5])]) = some [5]
    ∧ unregister (onMessage 1 "t" 6 (run [Event.onMessageE 1 "t" 5] initState)).2
        (unregister (onMessage 1 "t" 6 (run [Event.onMessageE 1 "t" 5] initState)).2
          (onMessage 1 "t" 6 (run [Event.onMessageE 1 "t" 5] initState)).1)
      = unregister (onMessage 1 "t" 6 (run [Event.onMessageE 1 "t" 5] initState)).2
          (onMessage 1 "t" 6 (run [Event.onMessageE 1 "t" 5] initState)).1 :=
  c9_token_removes_exactly_its_handler _ 1 "t" 6 0 [("t", [5])] (by decide) (by decide)

/-- Claim C6: `disconnect(id)` clears the SubscriptionSet and the
HandlerRegistry for `id` and leaves every other id's map entries unchanged;
every non-disconnect transition (connect, open, close, timer fire) preserves
both maps wholesale; and after `disconnect(id)`, a `connect(id)` followed by
delivery of the new socket's open event sends no subscribe frame, and a
subsequent inbound frame of any type invokes no handler. -/
theorem c6_disconnect_clears_consumer_intent (m : MState) (id : Nat)
    (hfresh : getSock m.nextSockId m.sockets = none) :
    lookupA id (disconnect id m).subscribedChannels = none
    ∧ lookupA id (disconnect id m).messageHandlers = none
    ∧ (∀ id2, id2 ≠ id →
        lookupA id2 (disconnect id m).subscribedChannels = lookupA id2 m.subscribedChannels
        ∧ lookupA id2 (disconnect id m).messageHandlers = lookupA id2 m.messageHandlers
        ∧ lookupA id2 (disconnect id m).connections = lookupA id2 m.connections
        ∧ lookupA id2 (disconnect id m).reconnectTimeouts = lookupA id2 m.reconnectTimeouts)
    ∧ (∀ id2, (connect id2 m).subscribedChannels = m.subscribedChannels
        ∧ (connect id2 m).messageHandlers = m.messageHandlers)
    ∧ (∀ sid, (deliverOpen sid m).subscribedChannels = m.subscribedChannels
        ∧ (deliverOpen sid m).messageHandlers = m.messageHandlers)
    ∧ (∀ sid, (deliverClose sid m).subscribedChannels = m.subscribedChannels
        ∧ (deliverClose sid m).messageHandlers = m.messageHandlers)
    ∧ (∀ tid, (timerFire tid m).subscribedChannels = m.subscribedChannels
        ∧ (timerFire tid m).messageHandlers = m.messageHandlers)
    ∧ (deliverOpen m.nextSockId (connect id (disconnect id m))).sent
        = (connect id (disconnect id m)).sent
    ∧ (∀ ty, (deliverMessage m.nextSockId (some ty)
          (deliverOpen m.nextSockId (connect id (disconnect id m)))).invoked
        = (connect id (disconnect id m)).invoked) := by
  have hconnNone : lookupA id (disconnect id m).connections = none :=
    disconnect_connections_self id m
  have htimerNone : lookupA id (disconnect id m).reconnectTimeouts = none :=
    disconnect_reconnectTimeouts_self id m
  have hm1 : connect id (disconnect id m) = { (disconnect id m) with
      sockets := (disconnect id m).sockets ++ [⟨m.nextSockId, id, ReadyState.connecting⟩],
      connections := insertA id m.nextSockId (disconnect id m).connections,
      nextSockId := m.nextSockId + 1 } := by
    rw [connect_of_lookup_none id _ hconnNone, connectFresh_of_none id _ htimerNone,
      disconnect_nextSockId]
  have hsockNone : getSock m.nextSockId (disconnect id m).sockets = none :=
    disconnect_getSock_of_none id m hfresh
  have hgs1 : getSock m.nextSockId (connect id (disconnect id m)).sockets
      = some ⟨m.nextSockId, id, ReadyState.connecting⟩ := by
    rw [hm1]
    dsimp only
    rw [getSock_append_of_none _ hsockNone]
    simp [getSock]
  have hsubsNone : lookupA id (connect id (disconnect id m)).subscribedChannels = none := by
    rw [connect_subscribedChannels, disconnect_subscribedChannels]
    exact lookupA_eraseA_self id m.subscribedChannels
  have hmhNone : lookupA id (connect id (disconnect id m)).messageHandlers = none := by
    rw [connect_messageHandlers, disconnect_messageHandlers]
    exact lookupA_eraseA_self id m.messageHandlers
  have hopen := deliverOpen_spec m.nextSockId (connect id (disconnect id m))
    ⟨m.nextSockId, id, ReadyState.connecting⟩ hgs1 rfl
  refine ⟨?_, ?_, ?_,
    fun id2 => ⟨connect_subscribedChannels id2 m, connect_messageHandlers id2 m⟩,
    fun sid => ⟨deliverOpen_subscribedChannels sid m, deliverOpen_messageHandlers sid m⟩,
    fun sid => ⟨deliverClose_subscribedChannels sid m, deliverClose_messageHandlers sid m⟩,
    fun tid => ⟨timerFire_subscribedChannels tid m, timerFire_messageHandlers tid m⟩,
    ?_, ?_⟩
  · rw [disconnect_subscribedChannels]
    exact lookupA_eraseA_self id m.subscribedChannels
  · rw [disconnect_messageHandlers]
    exact lookupA_eraseA_self id m.messageHandlers
  · intro id2 hne
    refine ⟨?_, ?_, disconnect_connections_ne id id2 m hne,
      disconnect_reconnectTimeouts_ne id id2 m hne⟩
    · rw [disconnect_subscribedChannels]
      exact lookupA_eraseA_ne _ hne
    · rw [disconnect_messageHandlers]
      exact lookupA_eraseA_ne _ hne
  · rw [hopen]
    dsimp only
    simp [hsubsNone]
  · intro ty
    have hgs2 : getSock m.nextSockId (deliverOpen m.nextSockId
        (connect id (disconnect id m))).sockets
        = some ⟨m.nextSockId, id, ReadyState.open_⟩ := by
      rw [hopen]
      dsimp only
      have h5 := getSock_setSockState_some ReadyState.open_ hgs1
      simpa using h5
    have hmh2 : lookupA id (deliverOpen m.nextSockId
        (connect id (disconnect id m))).messageHandlers = none := by
      rw [deliverOpen_messageHandlers]
      exact hmhNone
    rw [deliverMessage_noRegistry m.nextSockId _ ⟨m.nextSockId, id, ReadyState.open_⟩ ty
      hgs2 rfl hmh2]
    exact deliverOpen_invoked m.nextSockId _

/-- Claim C6 witness: id 5 holds channel "a" and handler 3; after
`disconnect(5)` both are gone, the post-disconnect reconnect sends no
subscribe frame, and a following inbound frame invokes nothing. -/
theorem c6_disconnect_clears_consumer_intent_witness :
    getSock (run [Event.subscribeE 5 ["a"], Event.onMessageE 5 "t" 3] initState).nextSockId
        (run [Event.subscribeE 5 ["a"], Event.onMessageE 5 "t" 3] initState).sockets = none
    ∧ lookupA 5 (disconnect 5
        (run [Event.subscribeE 5 ["a"], Event.onMessageE 5 "t" 3] initState)).subscribedChannels
      = none
    ∧ lookupA 5 (disconnect 5
        (run [Event.subscribeE 5 ["a"], Event.onMessageE 5 "t" 3] initState)).messageHandlers
      = none
    ∧ (deliverOpen (run [Event.subscribeE 5 ["a"], Event.onMessageE 5 "t" 3] initState).nextSockId
        (connect 5 (disconnect 5
          (run [Event.subscribeE 5 ["a"], Event.onMessageE 5 "t" 3] initState)))).sent
      = (connect 5 (disconnect 5
          (run [Event.subscribeE 5 ["a"], Event.onMessageE 5 "t" 3] initState))).sent
    ∧ (∀ ty, (deliverMessage
          (run [Event.subscribeE 5 ["a"], Event.onMessageE 5 "t" 3] initState).nextSockId
          (some ty)
          (deliverOpen
            (run [Event.subscribeE 5 ["a"], Event.onMessageE 5 "t" 3] initState).nextSockId
            (connect 5 (disconnect 5
              (run [Event.subscribeE 5 ["a"], Event.onMessageE 5 "t" 3] initState))))).invoked
        = (connect 5 (disconnect 5
            (run [Event.subscribeE 5 ["a"], Event.onMessageE 5 "t" 3] initState))).invoked) := by
  have hc := c6_disconnect_clears_consumer_intent
    (run [Event.subscribeE 5 ["a"], Event.onMessageE 5 "t" 3] initState) 5 (by decide)
  exact ⟨by decide, hc.1, hc.2.1, hc.2.2.2.2.2.2.2.1, hc.2.2.2.2.2.2.2.2⟩

/-- Claim C10: an inbound message whose `type` discriminant is the literal
string "all" makes each wildcard handler run twice for that single frame —
the type-specific lookup and the wildcard pass both fetch the same set, so
the invocation log gains the wildcard list twice and every handler's count
rises by twice its multiplicity in that list. -/
theorem c10_all_typed_message_double_invokes (m : MState) (sid : Nat) (s : Socket)
    (g : Nat) (hmap : HandlerMap)
    (h1 : getSock sid m.sockets = some s) (h2 : s.state = ReadyState.open_)
    (h3 : lookupA s.connId m.messageHandlers = some (g, hmap)) :
    (deliverMessage sid (some "all") m).invoked
      = m.invoked ++ (lookupA "all" hmap).getD [] ++ (lookupA "all" hmap).getD []
    ∧ (∀ h, List.count h ((deliverMessage sid (some "all") m).invoked)
        = List.count h m.invoked + 2 * List.count h ((lookupA "all" hmap).getD [])) := by
  have hd := deliverMessage_dispatch sid m s "all" g hmap h1 h2 h3
  constructor
  · rw [hd]
  · intro hh
    rw [hd]
    simp [List.count_append]
    ring

/-- Claim C10 witness: wildcard handler 9 on id 1 is invoked twice for a
single frame of type "all". -/
theorem c10_all_typed_message_double_invokes_witness :
    (deliverMessage 0 (some "all")
        (run [Event.connectE 1, Event.openE 0, Event.onMessageE 1 "all" 9] initState)).invoked
      = (run [Event.connectE 1, Event.openE 0,
          Event.onMessageE 1 "all" 9] initState).invoked ++ [9] ++ [9]
    ∧ (∀ h, List.count h ((deliverMessage 0 (some "all")
          (run [Event.connectE 1, Event.openE 0,
            Event.onMessageE 1 "all" 9] initState)).invoked)
        = List.count h (run [Event.connectE 1, Event.openE 0,
            Event.onMessageE 1 "all" 9] initState).invoked + 2 * List.count h [9]) :=
  c10_all_typed_message_double_invokes _ 0 ⟨0, 1, ReadyState.open_⟩ 0 [("all", [9])]
    (by decide) rfl (by decide)

end WSManager
